import Mathlib

/-!
Shallow embedding of the chromecast-tui repository core
(`media_server.py`, `cast_manager.py`, `app.py`) and proofs about it.

Conventions:
* Python strings are modelled as `List Char` (`PyStr`), with the string
  operations the code uses (`split`, `strip`, `lower`, `replace`, `in`,
  `int(...)`) implemented structurally so that the kernel can evaluate
  them on concrete inputs;
* file contents and HTTP bodies are `List Nat` (byte values);
* Python floats are modelled as `ℚ`;
* Python exceptions are modelled as `Except PyStr _` with the exception
  message as the payload;
* calls into external libraries (pychromecast, aiohttp, urllib sockets)
  are modelled as oracle parameters supplying the outcome of the call.
-/

namespace ChromecastTui

/-! ## Python string primitives -/

/-- A Python string, as a list of characters. -/
abbrev PyStr := List Char

/-- The whitespace characters stripped by Python's `str.strip()`. -/
def pyIsSpace (c : Char) : Bool :=
  c = ' ' ∨ c = '\t' ∨ c = '\n' ∨ c = '\x0d' ∨ c = '\x0b' ∨ c = '\x0c'

/-- Python `str.strip()`: drop whitespace from both ends. -/
def pyStrip (s : PyStr) : PyStr :=
  ((s.dropWhile pyIsSpace).reverse.dropWhile pyIsSpace).reverse

/-- Python `str.split(sep)` for a one-character separator `sep`
(the only form the code uses: `"-"`, `":"`).
`split` always returns at least one part; empty parts are kept. -/
def splitOnChar (sep : Char) : PyStr → List PyStr
  | [] => [[]]
  | c :: tl =>
    if c = sep then [] :: splitOnChar sep tl
    else
      match splitOnChar sep tl with
      | r :: rs => (c :: r) :: rs
      | [] => [[c]]

/-- Python `pat in s`: `pat` occurs as a contiguous substring of `s`. -/
def hasSub (s pat : PyStr) : Bool :=
  match s with
  | [] => pat.isEmpty
  | _ :: tl => pat.isPrefixOf s || hasSub tl pat

/-- Recursion core of `removeAll`; the fuel argument (an upper bound on
the string length, consumed once per step) only makes the recursion
structural and never runs out on the initial call. -/
def removeAllAux (pat : PyStr) : Nat → PyStr → PyStr
  | 0, _ => []
  | _, [] => []
  | fuel + 1, c :: tl =>
    if pat.isPrefixOf (c :: tl) ∧ ¬ pat = [] then
      removeAllAux pat fuel ((c :: tl).drop pat.length)
    else c :: removeAllAux pat fuel tl

/-- Python `s.replace(pat, "")` for a non-empty `pat`: remove every
(leftmost-first) occurrence of `pat` from `s`. -/
def removeAll (s pat : PyStr) : PyStr :=
  removeAllAux pat s.length s

/-- Python `str.lower()` (ASCII letters, which is all the code compares). -/
def pyLower (s : PyStr) : PyStr := s.map Char.toLower

/-- Value of a decimal digit character. -/
def digitVal? (c : Char) : Option Nat :=
  if '0' ≤ c ∧ c ≤ '9' then some (c.toNat - '0'.toNat) else none

/-- A non-empty all-digit string as a number; `none` otherwise. -/
def digitsVal? (s : PyStr) : Option Nat :=
  match s with
  | [] => none
  | _ =>
    s.foldl
      (fun acc c =>
        match acc, digitVal? c with
        | some a, some d => some (a * 10 + d)
        | _, _ => none)
      (some 0)

/-- Python `int(s)`: strip whitespace, optional sign, decimal digits;
`none` models a `ValueError`. (Underscore digit grouping is not modelled;
no input the code parses contains it.) -/
def pyInt? (s : PyStr) : Option Int :=
  match pyStrip s with
  | '+' :: rest => (digitsVal? rest).map Int.ofNat
  | '-' :: rest => (digitsVal? rest).map (fun n => -(n : Int))
  | t => (digitsVal? t).map Int.ofNat

/-- Decimal rendering of a natural number (Python `str`/f-string). -/
def natToChars (n : Nat) : PyStr := Nat.toDigits 10 n

/-- Decimal rendering of an integer (Python `str`/f-string). -/
def intToChars (i : Int) : PyStr :=
  if i < 0 then '-' :: natToChars i.natAbs else natToChars i.toNat

/-! ## Range-serving file handler (`media_server.handle_media`, range branch) -/

/-- Model of the HTTP response produced by the range branch of
`handle_media`: status code, the `Content-Range` header, the value the
code writes into the `Content-Length` header (the code sets it to
`str(length)`, here kept as the integer), and the streamed body bytes. -/
structure MediaResponse where
  status : Nat
  contentRange : PyStr
  contentLength : Int
  body : List Nat
deriving Repr, DecidableEq

/-- One `f.read(size)` on a file whose cursor is at `pos`:
returns up to `size` bytes starting at `pos`. -/
def fileRead (file : List Nat) (pos size : Nat) : List Nat :=
  (file.drop pos).take size

/-- Recursion core of the streaming loop; the fuel argument (an upper
bound on `remaining`, consumed once per chunk) only makes the recursion
structural and never runs out on the initial call. -/
def streamRangeAux (file : List Nat) : Nat → Nat → Int → List Nat
  | 0, _, _ => []
  | fuel + 1, pos, remaining =>
    if remaining ≤ 0 then []
    else
      match fileRead file pos (min 65536 remaining.toNat) with
      | [] => []
      | c :: cs =>
        (c :: cs) ++ streamRangeAux file fuel (pos + (c :: cs).length) (remaining - (c :: cs).length)

/-- The streaming loop of the range branch:
`remaining = length`, repeatedly `chunk = f.read(min(65536, remaining))`,
stop when `remaining <= 0` or a read returns no data. -/
def streamRange (file : List Nat) (pos : Nat) (remaining : Int) : List Nat :=
  streamRangeAux file remaining.toNat pos remaining

/-- Model of `int(parts[0]) if parts[0] else 0` — the start offset of the range. -/
def parseRangeStart (p0 : PyStr) : Option Int :=
  if p0 = [] then some 0 else pyInt? p0

/-- Model of `int(parts[1]) if parts[1] else file_size - 1` — the end offset. -/
def parseRangeEnd (fileSize : Nat) (p1 : PyStr) : Option Int :=
  if p1 = [] then some ((fileSize : Int) - 1) else pyInt? p1

/-- Core of the range branch of `handle_media`, after the header value has
been split at `-`: clamp `end` to `file_size - 1`, set status 206, build
the `Content-Range` and `Content-Length` headers and stream the body.
`none` models a `ValueError` escaping from `int(...)` (aiohttp turns it
into a 500 response). -/
def rangeResponseOfParts (file : List Nat) (p0 p1 : PyStr) : Option MediaResponse :=
  let fileSize := file.length
  match parseRangeStart p0, parseRangeEnd fileSize p1 with
  | some start, some endv =>
    let endc := min endv ((fileSize : Int) - 1)
    let length := endc - start + 1
    some {
      status := 206
      contentRange :=
        "bytes ".data ++ intToChars start ++ "-".data ++ intToChars endc
          ++ "/".data ++ natToChars fileSize
      contentLength := length
      body := streamRange file start.toNat length }
  | _, _ => none

/-- The range branch of `handle_media` on a file that exists and is a
regular file, given the value of the `Range` header:
`range_val = range_header.replace("bytes=", "")`, split on `-`,
then `rangeResponseOfParts`.  `none` models a Python exception
(`IndexError` when there is no `-`, or `ValueError` from `int`). -/
def handle_media_range (file : List Nat) (rangeHeader : PyStr) : Option MediaResponse :=
  let rangeVal := removeAll rangeHeader "bytes=".data
  match splitOnChar '-' rangeVal with
  | p0 :: p1 :: _ => rangeResponseOfParts file p0 p1
  | _ => none

/-! ## Device session manager (`cast_manager.CastManager`) -/

/-- Model of `cast_manager.DeviceInfo`. -/
structure DeviceInfo where
  name : PyStr
  host : PyStr
  port : Nat
  model_name : PyStr
  cast_type : PyStr
  backend : PyStr := "chromecast".data
deriving Repr, DecidableEq

/-- Model of `cast_manager.PlaybackState` (floats as `ℚ`). -/
structure PlaybackState where
  status : PyStr := "idle".data
  title : PyStr := []
  content_id : PyStr := []
  current_time : ℚ := 0
  duration : ℚ := 0
  volume : ℚ := 1
  is_muted : Bool := false
  player_state : PyStr := []
deriving Repr, DecidableEq

/-- The mutable attributes of a `CastManager`: the pychromecast handle and
the discovery browser (their identities modelled as opaque numbers), the
Roku and AirPlay device descriptors, the active backend tag, and the
cached `PlaybackState`. -/
structure CastManagerState where
  cast : Option Nat := none
  browser : Option Nat := none
  roku_device : Option DeviceInfo := none
  airplay_device : Option DeviceInfo := none
  active_backend : PyStr := "chromecast".data
  state : PlaybackState := {}
deriving Repr, DecidableEq

/-- State built by `CastManager.__init__`. -/
def initialState : CastManagerState := {}

def errNotConnectedChromecast : PyStr := "Not connected to any Chromecast".data
def errNotConnectedRoku : PyStr := "Not connected to any Roku device".data
def errAirplayPending : PyStr := "AirPlay backend pendiente de implementacion".data
def errRokuNoSeek : PyStr := "Roku no soporta seek absoluto".data
def errRokuNoVolume : PyStr := "Roku no soporta volumen por API estándar".data
def errRokuNoMute : PyStr := "Roku no soporta mute por API estándar".data

/-- Model of `CastManager._media_controller`: the live handle's media controller,
or a `RuntimeError` when no Chromecast is connected. -/
def media_controller (s : CastManagerState) : Except PyStr Nat :=
  match s.cast with
  | none => .error errNotConnectedChromecast
  | some h => .ok h

/-- Model of `CastManager._roku_keypress`: fails when no Roku device handle is set;
otherwise performs the key-press HTTP POST, whose outcome the oracle
`http` supplies. -/
def roku_keypress (s : CastManagerState) (_key : PyStr) (http : Except PyStr Unit) :
    Except PyStr Unit :=
  match s.roku_device with
  | none => .error errNotConnectedRoku
  | some _ => http

/-- Model of `CastManager.play`: Roku maps to the `Play` key, AirPlay raises, the
chromecast backend delegates to the media controller (`dispatch` is the
outcome of `mc.play()`). -/
def play (s : CastManagerState) (rokuHttp dispatch : Except PyStr Unit) : Except PyStr Unit :=
  if s.active_backend = "roku".data then roku_keypress s "Play".data rokuHttp
  else if s.active_backend = "airplay".data then .error errAirplayPending
  else
    match media_controller s with
    | .error e => .error e
    | .ok _ => dispatch

/-- Model of `CastManager.pause` (the Roku branch shares the `Play` key). -/
def pause (s : CastManagerState) (rokuHttp dispatch : Except PyStr Unit) : Except PyStr Unit :=
  if s.active_backend = "roku".data then roku_keypress s "Play".data rokuHttp
  else if s.active_backend = "airplay".data then .error errAirplayPending
  else
    match media_controller s with
    | .error e => .error e
    | .ok _ => dispatch

/-- Model of `CastManager.stop` (the Roku branch maps to the `Home` key). -/
def stop (s : CastManagerState) (rokuHttp dispatch : Except PyStr Unit) : Except PyStr Unit :=
  if s.active_backend = "roku".data then roku_keypress s "Home".data rokuHttp
  else if s.active_backend = "airplay".data then .error errAirplayPending
  else
    match media_controller s with
    | .error e => .error e
    | .ok _ => dispatch

/-- Model of `CastManager.seek(seconds)`: a capability error on Roku and AirPlay,
otherwise delegated to the media controller. -/
def seek (s : CastManagerState) (_seconds : ℚ) (dispatch : Except PyStr Unit) :
    Except PyStr Unit :=
  if s.active_backend = "roku".data then .error errRokuNoSeek
  else if s.active_backend = "airplay".data then .error errAirplayPending
  else
    match media_controller s with
    | .error e => .error e
    | .ok _ => dispatch

/-- Result of one `CastManager.set_volume` call: the value passed to the
backend `cast.set_volume` (when that call was made), the manager state
after the call returns or raises, and the exception raised if any. -/
structure VolumeCall where
  dispatched : Option ℚ
  finalState : CastManagerState
  raised : Option PyStr
deriving DecidableEq

/-- Model of `CastManager.set_volume(level)`: clamp the level to [0,1]; Roku and
AirPlay raise capability errors; otherwise, when a cast handle is
present, call `cast.set_volume(clamped)` (outcome supplied by the oracle
`dispatch`, and an exception from it propagates before the cache write);
finally store the clamped value into `state.volume`. -/
def set_volume (s : CastManagerState) (level : ℚ) (dispatch : ℚ → Except PyStr Unit) :
    VolumeCall :=
  let lvl := max 0 (min 1 level)
  if s.active_backend = "roku".data then ⟨none, s, some errRokuNoVolume⟩
  else if s.active_backend = "airplay".data then ⟨none, s, some errAirplayPending⟩
  else
    match s.cast with
    | some _ =>
      match dispatch lvl with
      | .ok _ => ⟨some lvl, { s with state := { s.state with volume := lvl } }, none⟩
      | .error e => ⟨some lvl, s, some e⟩
    | none => ⟨none, { s with state := { s.state with volume := lvl } }, none⟩

/-- Model of `CastManager.toggle_mute`: capability errors on Roku and AirPlay;
otherwise `cast.set_volume_muted(not state.is_muted)` is called only when
a cast handle is present — with no handle the method silently returns. -/
def toggle_mute (s : CastManagerState) (dispatch : Bool → Except PyStr Unit) :
    Except PyStr Unit :=
  if s.active_backend = "roku".data then .error errRokuNoMute
  else if s.active_backend = "airplay".data then .error errAirplayPending
  else
    match s.cast with
    | some _ => dispatch (! s.state.is_muted)
    | none => .ok ()

/-- Model of `CastManager.quit_app`: Roku maps to the `Home` key, AirPlay raises;
otherwise `cast.quit_app()` is called only when a cast handle is present —
with no handle the method silently returns. -/
def quit_app (s : CastManagerState) (rokuHttp dispatch : Except PyStr Unit) :
    Except PyStr Unit :=
  if s.active_backend = "roku".data then roku_keypress s "Home".data rokuHttp
  else if s.active_backend = "airplay".data then .error errAirplayPending
  else
    match s.cast with
    | some _ => dispatch
    | none => .ok ()

/-- The state `CastManager.disconnect()` leaves behind: every backend
handle cleared, the backend tag reset, a fresh default `PlaybackState`. -/
def disconnectedState : CastManagerState :=
  { cast := none, browser := none, roku_device := none, airplay_device := none,
    active_backend := "chromecast".data, state := {} }

/-- Model of `try: act except Exception: pass` — any exception is discarded. -/
def tryIgnore (act : Except PyStr Unit) : Except PyStr Unit :=
  match act with
  | .ok _ => .ok ()
  | .error _ => .ok ()

/-- Model of `CastManager.disconnect()`: tear down the cast handle and stop the
discovery browser (outcomes supplied by the oracles, each wrapped in
`try/except: pass`), then clear all handles and reset the playback
state. -/
def disconnect (s : CastManagerState) (castTeardown browserTeardown : Except PyStr Unit) :
    Except PyStr CastManagerState := do
  let _ ← if s.cast.isSome then tryIgnore castTeardown else .ok ()
  let _ ← if s.browser.isSome then tryIgnore browserTeardown else .ok ()
  return disconnectedState

/-- State after a successful chromecast `connect`: `disconnect()` ran
first, then the resolved handle and browser are stored, the other backend
handles cleared, and the device's reported volume and mute captured into
the cached state. -/
def connectChromecastOk (_s : CastManagerState) (handle browser : Nat) (vol : ℚ)
    (muted : Bool) : CastManagerState :=
  { disconnectedState with
    cast := some handle, browser := some browser,
    active_backend := "chromecast".data,
    roku_device := none, airplay_device := none,
    state := { disconnectedState.state with volume := vol, is_muted := muted } }

/-- State after a successful `_connect_roku`: `disconnect()` ran first,
then the liveness probe succeeded and the descriptor is stored with every
other handle cleared. -/
def connectRokuOk (_s : CastManagerState) (device : DeviceInfo) : CastManagerState :=
  { disconnectedState with
    roku_device := some device, active_backend := "roku".data,
    cast := none, browser := none, airplay_device := none }

/-- State after a failed `connect` of any backend (device not found,
`wait` timeout, liveness probe failure, or the AirPlay stub): the initial
`disconnect()` already ran and the exception propagates before any handle
is stored. -/
def connectFail (_s : CastManagerState) : CastManagerState :=
  disconnectedState

/-- Model of `CastManager.connected`. -/
def connected (s : CastManagerState) : Bool :=
  s.cast.isSome || s.roku_device.isSome || s.airplay_device.isSome

/-- How many backend handles are set. -/
def handleCount (s : CastManagerState) : Nat :=
  (if s.cast.isSome then 1 else 0) + (if s.roku_device.isSome then 1 else 0)
    + (if s.airplay_device.isSome then 1 else 0)

/-- The manager states reachable through `__init__`, (re)connection
attempts, disconnects, and writes to the cached playback state (status
pushes and the `set_volume`/`connect` cache writes, which never touch the
handles). -/
inductive Reachable : CastManagerState → Prop where
  | init : Reachable initialState
  | disconnect_step (s : CastManagerState) : Reachable s → Reachable disconnectedState
  | connect_chromecast_ok (s : CastManagerState) (h b : Nat) (vol : ℚ) (muted : Bool) :
      Reachable s → Reachable (connectChromecastOk s h b vol muted)
  | connect_roku_ok (s : CastManagerState) (d : DeviceInfo) :
      Reachable s → Reachable (connectRokuOk s d)
  | connect_fail (s : CastManagerState) : Reachable s → Reachable (connectFail s)
  | playback_write (s : CastManagerState) (ps : PlaybackState) :
      Reachable s → Reachable { s with state := ps }

/-- Model of `CastManager.discover`: the chromecast enumeration (outcome of
`pychromecast.get_chromecasts`, which no `try` guards), then the Roku and
the AirPlay probes, each wrapped in `try/except: pass` that keeps the
devices collected so far. -/
def discover (chromecastProbe rokuProbe airplayProbe : Except PyStr (List DeviceInfo)) :
    Except PyStr (List DeviceInfo) := do
  let ccs ← chromecastProbe
  let devices := ccs
  let devices := devices ++ (match rokuProbe with | .ok ds => ds | .error _ => [])
  let devices := devices ++ (match airplayProbe with | .ok ds => ds | .error _ => [])
  return devices

/-- A sample Roku device descriptor, used as concrete input. -/
def sampleRoku : DeviceInfo :=
  { name := "Roku TV".data, host := "192.168.1.50".data, port := 8060,
    model_name := "Roku".data, cast_type := "roku".data, backend := "roku".data }

/-- A manager state with a live chromecast handle, used as concrete input. -/
def connectedCastState : CastManagerState := { initialState with cast := some 0 }

/-! ## Reconnect-and-retry policy (`app._run_control_action`) -/

/-- The connection-failure markers of `app._is_connection_error`. -/
def connectionMarkers : List PyStr :=
  ["not connected".data, "connection".data, "timeout".data, "socket".data,
   "broken pipe".data, "reset by peer".data, "transport".data]

/-- Model of `app._is_connection_error`: case-insensitive substring match of the
markers against the error text. -/
def is_connection_error (errText : PyStr) : Bool :=
  connectionMarkers.any (fun m => hasSub (pyLower errText) m)

/-- What one `_run_control_action` invocation did: how many times the
command ran, how many reconnect attempts (calls to `connect`) happened,
and the error surfaced to the user (`none` = success, no message). -/
structure ControlTrace where
  execAttempts : Nat
  reconnectAttempts : Nat
  surfaced : Option PyStr
deriving Repr, DecidableEq

/-- Model of `app._run_control_action` (under the control lock): run the command
(first outcome `exec1`); on failure classified as a connection error,
`_attempt_reconnect` — which does nothing without a remembered device,
and otherwise reconnects once (success given by `reconnectOk`) — and, if
reconnected, retry once (outcome `exec2`), surfacing the retry's error;
every other failure is surfaced as final. -/
def run_control_action (remembered : Bool) (exec1 : Except PyStr Unit)
    (reconnectOk : Bool) (exec2 : Except PyStr Unit) : ControlTrace :=
  match exec1 with
  | .ok _ => ⟨1, 0, none⟩
  | .error e =>
    if is_connection_error e then
      if remembered then
        if reconnectOk then
          match exec2 with
          | .ok _ => ⟨2, 1, none⟩
          | .error e2 => ⟨2, 1, some e2⟩
        else ⟨1, 1, some e⟩
      else ⟨1, 0, some e⟩
    else ⟨1, 0, some e⟩

/-! ## Seek-target parser (`app._parse_seek_target`) -/

/-- Model of `app._parse_seek_target(raw, current_time, duration)`, parameterised
by `pyFloat`, the model of Python's `float(...)` (`none` = `ValueError`);
`int(...)` is `pyInt?`.  Branches: signed offset relative to
`current_time`, `M:S`, `H:M:S`, plain number; then clamp to `0` from
below and — when `duration` is truthy and positive — to `duration` from
above. -/
def parse_seek_target (pyFloat : PyStr → Option ℚ) (raw : PyStr)
    (current_time duration : ℚ) : Option ℚ :=
  let text := pyStrip raw
  if text = [] then none
  else
    let target? : Option ℚ :=
      if text.headD ' ' = '+' ∨ text.headD ' ' = '-' then
        (pyFloat text).map (fun delta => current_time + delta)
      else if hasSub text ":".data then
        match splitOnChar ':' text with
        | [p0, p1] =>
          match pyInt? p0, pyInt? p1 with
          | some m, some sec => some (((m * 60 + sec : Int) : ℚ))
          | _, _ => none
        | [p0, p1, p2] =>
          match pyInt? p0, pyInt? p1, pyInt? p2 with
          | some h, some m, some sec => some (((h * 3600 + m * 60 + sec : Int) : ℚ))
          | _, _, _ => none
        | _ => none
      else pyFloat text
    target?.map (fun t =>
      let t1 := max 0 t
      if 0 < duration then min t1 duration else t1)

/-- Whether the input matches one of the parser's accepted forms (after
stripping): a signed offset, `M:S`, `H:M:S`, or a plain number — with
the number parts accepted by `pyFloat`/`int`. -/
def seekFormMatches (pyFloat : PyStr → Option ℚ) (raw : PyStr) : Bool :=
  let text := pyStrip raw
  if text = [] then false
  else if text.headD ' ' = '+' ∨ text.headD ' ' = '-' then (pyFloat text).isSome
  else if hasSub text ":".data then
    match splitOnChar ':' text with
    | [p0, p1] => (pyInt? p0).isSome && (pyInt? p1).isSome
    | [p0, p1, p2] => (pyInt? p0).isSome && (pyInt? p1).isSome && (pyInt? p2).isSome
    | _ => false
  else (pyFloat text).isSome

/-! ## Upload-and-cast handler (`media_server.handle_upload_cast`) -/

/-- One multipart form field. -/
structure MultipartField where
  name : PyStr
  filename : Option PyStr
  content : List Nat
deriving Repr, DecidableEq

/-- Model of `pathlib.PurePath(filename).suffix`: the extension of the final path
component — the part from the last `.` on, when that dot is neither the
first nor the last character of the component. -/
def pathSuffix (filename : PyStr) : PyStr :=
  let nm := ((splitOnChar '/' filename).filter (fun comp => ¬ comp = [])).getLastD []
  let dotIdxs := (List.range nm.length).filter (fun i => nm.getD i ' ' = '.')
  match dotIdxs.getLast? with
  | some i => if 0 < i ∧ i < nm.length - 1 then nm.drop i else []
  | none => []

/-- The JSON body and status the upload endpoint answers with. -/
structure UploadResponse where
  status : Nat
  ok : Bool
  error : Option PyStr
  url : Option PyStr
  name : Option PyStr
deriving Repr, DecidableEq

/-- What one `handle_upload_cast` request did: the response, the files it
persisted into the upload directory (path and content), and the
`(url, filename)` arguments the embedding callback received, if it was
invoked. -/
structure UploadOutcome where
  response : UploadResponse
  savedFiles : List (PyStr × List Nat)
  callbackCall : Option (PyStr × PyStr)
deriving Repr, DecidableEq

/-- Python `s.lstrip("/")`. -/
def dropLeadingSlashes (s : PyStr) : PyStr := s.dropWhile (fun c => c = '/')

/-- Python `field.filename or "upload.bin"` — the original filename, with
the fallback for a missing or empty one. -/
def uploadFilename (field : MultipartField) : PyStr :=
  match field.filename with
  | some f => if f = [] then "upload.bin".data else f
  | none => "upload.bin".data

/-- Path the upload is persisted under:
`upload_dir / f"{uuid4().hex}{ext}"`, `ext` being the original filename's
extension. The upload directory is its already-resolved absolute path. -/
def uploadSavedPath (uploadDir uuidHex : PyStr) (field : MultipartField) : PyStr :=
  uploadDir ++ "/".data ++ uuidHex ++ pathSuffix (uploadFilename field)

/-- The fetchable URL for a persisted upload:
`f"{request.scheme}://{request.host}/{rel}"` with `rel` the saved path
stripped of leading slashes. -/
def uploadMediaUrl (scheme host uploadDir uuidHex : PyStr) (field : MultipartField) : PyStr :=
  scheme ++ "://".data ++ host ++ "/".data
    ++ dropLeadingSlashes (uploadSavedPath uploadDir uuidHex field)

/-- Model of `media_server.handle_upload_cast`: read the first multipart field
(`none` when the body has no field); reject it unless named `file`;
otherwise persist the whole upload under `{uuid4().hex}{ext}` inside the
upload directory (the fresh hex string supplied by the oracle `uuidHex`),
build the fetchable URL from the request's scheme and host, invoke the
callback with `(url, original filename)`, and answer `{ok:true,url,name}`
— or `{ok:false,error,url}` with 500 when the callback raises. -/
def handle_upload_cast (uploadDir scheme host : PyStr)
    (firstField : Option MultipartField) (uuidHex : PyStr)
    (callback : PyStr → PyStr → Except PyStr Unit) : UploadOutcome :=
  match firstField with
  | none =>
    ⟨⟨400, false, some "missing file".data, none, none⟩, [], none⟩
  | some field =>
    if ¬ field.name = "file".data then
      ⟨⟨400, false, some "missing file".data, none, none⟩, [], none⟩
    else
      let filename := uploadFilename field
      let saved := uploadSavedPath uploadDir uuidHex field
      let mediaUrl := uploadMediaUrl scheme host uploadDir uuidHex field
      match callback mediaUrl filename with
      | .error e =>
        ⟨⟨500, false, some e, some mediaUrl, none⟩,
         [(saved, field.content)], some (mediaUrl, filename)⟩
      | .ok _ =>
        ⟨⟨200, true, none, some mediaUrl, some filename⟩,
         [(saved, field.content)], some (mediaUrl, filename)⟩

/-! ## Theorems -/

/-- The streaming loop delivers exactly the bytes of the file from offset
`pos`, truncated to `remaining` bytes (and to end of file): it equals
`(file.drop pos).take remaining.toNat` whenever the fuel suffices. -/
theorem streamRangeAux_eq_take (file : List Nat) :
    ∀ (n pos : Nat) (remaining : Int), remaining.toNat ≤ n →
      streamRangeAux file n pos remaining = (file.drop pos).take remaining.toNat := by
  intro n
  induction n with
  | zero =>
    intro pos remaining hr
    have ht : remaining.toNat = 0 := by omega
    rw [ht, List.take_zero]
    rfl
  | succ n ih =>
    intro pos remaining hr
    rw [streamRangeAux]
    by_cases h0 : remaining ≤ 0
    · rw [if_pos h0]
      have ht : remaining.toNat = 0 := by omega
      rw [ht, List.take_zero]
    · rw [if_neg h0]
      have hrpos : 0 < remaining := by omega
      have hm : 0 < min 65536 remaining.toNat := by omega
      split
      next hfc =>
        unfold fileRead at hfc
        rcases List.take_eq_nil_iff.mp hfc with hz | hnil
        · omega
        · rw [hnil, List.take_nil]
      next c cs hfc =>
        have hclen : (c :: cs).length ≤ min 65536 remaining.toNat := by
          rw [← hfc]
          exact List.length_take_le _ _
        have hlen1 : 1 ≤ (c :: cs).length := by simp
        have hsub : (remaining - ((c :: cs).length : Int)).toNat ≤ n := by omega
        rw [ih _ _ hsub]
        unfold fileRead at hfc
        have hdd : file.drop (pos + (c :: cs).length) = (file.drop pos).drop ((c :: cs).length) := by
          rw [List.drop_drop]
        rw [hdd]
        have hsplit : remaining.toNat
            = min 65536 remaining.toNat + (remaining.toNat - min 65536 remaining.toNat) := by
          omega
        rw [hsplit, List.take_add, hfc]
        by_cases hfull : (c :: cs).length = min 65536 remaining.toNat
        · rw [hfull]
          have hts : (remaining - ((min 65536 remaining.toNat : Nat) : Int)).toNat
              = remaining.toNat - min 65536 remaining.toNat := by omega
          rw [hts]
        · -- the read was short: the file is exhausted after this chunk
          have hlt : (c :: cs).length < min 65536 remaining.toNat := lt_of_le_of_ne hclen hfull
          have hlenfd : (c :: cs).length = min (min 65536 remaining.toNat) (file.drop pos).length := by
            rw [← hfc, List.length_take]
          have h1 : (file.drop pos).drop ((c :: cs).length) = [] := by
            apply List.drop_eq_nil_of_le
            omega
          have h2 : (file.drop pos).drop (min 65536 remaining.toNat) = [] := by
            apply List.drop_eq_nil_of_le
            omega
          rw [h1, h2, List.take_nil, List.take_nil]

/-- Closed form of the streaming loop. -/
theorem streamRange_eq_take (file : List Nat) (pos : Nat) (remaining : Int) :
    streamRange file pos remaining = (file.drop pos).take remaining.toNat :=
  streamRangeAux_eq_take file remaining.toNat pos remaining le_rfl

/-- C1: for every GET request whose `Range` header splits as
`bytes=start-end` (`start` defaulting to 0 when its part is empty, `end`
defaulting to size−1 when its part is empty) on an existing regular file,
with `start` within the file: the handler clamps `end` to size−1, responds
206 with `Content-Range: bytes {start}-{end}/{size}` and
`Content-Length = end-start+1`, and streams exactly the `end-start+1`
bytes of the file starting at offset `start` (reads never come back empty
in this in-bounds case, so nothing stops early). -/
theorem handle_media_range_serves_clamped_slice
    (file : List Nat) (header p0 p1 : PyStr) (rest : List PyStr) (start endv : Int)
    (hsplit : splitOnChar '-' (removeAll header "bytes=".data) = p0 :: p1 :: rest)
    (hp0 : parseRangeStart p0 = some start)
    (hp1 : parseRangeEnd file.length p1 = some endv)
    (h0le : 0 ≤ start)
    (hstart : start < file.length)
    (hse : start ≤ endv) :
    handle_media_range file header = some {
        status := 206
        contentRange := "bytes ".data ++ intToChars start ++ "-".data
          ++ intToChars (min endv ((file.length : Int) - 1)) ++ "/".data
          ++ natToChars file.length
        contentLength := min endv ((file.length : Int) - 1) - start + 1
        body := (file.drop start.toNat).take (min endv ((file.length : Int) - 1) - start + 1).toNat }
      ∧ ((file.drop start.toNat).take
            (min endv ((file.length : Int) - 1) - start + 1).toNat).length
          = (min endv ((file.length : Int) - 1) - start + 1).toNat
      ∧ (0 : Int) < min endv ((file.length : Int) - 1) - start + 1
      ∧ (p0 = [] → start = 0)
      ∧ (p1 = [] → endv = (file.length : Int) - 1) := by
  have hmain : handle_media_range file header = rangeResponseOfParts file p0 p1 := by
    simp only [handle_media_range, hsplit]
  rw [hmain]
  simp only [rangeResponseOfParts, hp0, hp1]
  refine ⟨?_, ?_, ?_, ?_, ?_⟩
  · rw [streamRange_eq_take]
  · rw [List.length_take, List.length_drop]
    rcases min_cases endv ((file.length : Int) - 1) with ⟨hm, hc⟩ | ⟨hm, hc⟩ <;>
      rw [hm] <;> omega
  · rcases min_cases endv ((file.length : Int) - 1) with ⟨hm, hc⟩ | ⟨hm, hc⟩ <;>
      rw [hm] <;> omega
  · intro h
    rw [h] at hp0
    simp [parseRangeStart] at hp0
    omega
  · intro h
    rw [h] at hp1
    simp [parseRangeEnd] at hp1
    omega

/-- C10: for every GET request on an existing regular file whose `Range`
header splits as `bytes=start-end` with a start offset beyond size−1, the
handler still responds 206 (never 416): `end` is clamped to size−1 (below
`start`), the `Content-Length` value `end-start+1` is non-positive, and
zero body bytes are streamed. -/
theorem handle_media_range_start_beyond_eof
    (file : List Nat) (header p0 p1 : PyStr) (rest : List PyStr) (start endv : Int)
    (hsplit : splitOnChar '-' (removeAll header "bytes=".data) = p0 :: p1 :: rest)
    (hp0 : parseRangeStart p0 = some start)
    (hp1 : parseRangeEnd file.length p1 = some endv)
    (hbeyond : (file.length : Int) - 1 < start) :
    handle_media_range file header = some {
        status := 206
        contentRange := "bytes ".data ++ intToChars start ++ "-".data
          ++ intToChars (min endv ((file.length : Int) - 1)) ++ "/".data
          ++ natToChars file.length
        contentLength := min endv ((file.length : Int) - 1) - start + 1
        body := [] }
      ∧ min endv ((file.length : Int) - 1) - start + 1 ≤ 0 := by
  have hmain : handle_media_range file header = rangeResponseOfParts file p0 p1 := by
    simp only [handle_media_range, hsplit]
  rw [hmain]
  simp only [rangeResponseOfParts, hp0, hp1]
  have hnp : min endv ((file.length : Int) - 1) - start + 1 ≤ 0 := by
    rcases min_cases endv ((file.length : Int) - 1) with ⟨hm, hc⟩ | ⟨hm, hc⟩ <;>
      rw [hm] <;> omega
  have hlen0 : (min endv ((file.length : Int) - 1) - start + 1).toNat = 0 := by omega
  refine ⟨?_, hnp⟩
  rw [streamRange_eq_take, hlen0, List.take_zero]

/-- Witness for C1: `Range: bytes=2-5` on the 20-byte file `0,…,19`
yields 206, `Content-Range: bytes 2-5/20`, `Content-Length: 4` and body
`[2,3,4,5]`. -/
theorem handle_media_range_serves_clamped_slice_witness :
    handle_media_range (List.range 20) "bytes=2-5".data
      = some { status := 206, contentRange := "bytes 2-5/20".data,
               contentLength := 4, body := [2, 3, 4, 5] } := by
  have h := handle_media_range_serves_clamped_slice (List.range 20) "bytes=2-5".data
    "2".data "5".data [] 2 5 (by decide) (by decide) (by decide) (by decide)
    (by decide) (by decide)
  exact h.1.trans (by decide)

/-- C2: a user command failing with a connection-classified error while a
device is remembered triggers exactly one reconnect attempt; if the
reconnect succeeds the command is retried exactly once, a succeeding
retry surfaces no error and a failing retry surfaces the retry's error; a
failed reconnect surfaces the original error with no retry; a failure not
classified as a connection error is surfaced as final with no reconnect
and no retry. -/
theorem run_control_action_retry_policy (e : PyStr) (reconnectOk : Bool)
    (exec2 : Except PyStr Unit) :
    (is_connection_error e = true →
      (run_control_action true (.error e) reconnectOk exec2).reconnectAttempts = 1
      ∧ run_control_action true (.error e) true (.ok ()) = ⟨2, 1, none⟩
      ∧ (∀ e2, run_control_action true (.error e) true (.error e2) = ⟨2, 1, some e2⟩)
      ∧ run_control_action true (.error e) false exec2 = ⟨1, 1, some e⟩)
    ∧ (is_connection_error e = false →
        run_control_action true (.error e) reconnectOk exec2 = ⟨1, 0, some e⟩) := by
  constructor
  · intro hconn
    refine ⟨?_, ?_, ?_, ?_⟩
    · cases reconnectOk
      · simp [run_control_action, hconn]
      · cases exec2 <;> simp [run_control_action, hconn]
    · simp [run_control_action, hconn]
    · intro e2
      simp [run_control_action, hconn]
    · simp [run_control_action, hconn]
  · intro hconn
    simp [run_control_action, hconn]

/-- Witness for C2: a first failure with message `timeout` (connection-
classified), a successful reconnect, and a retry that fails with `boom`:
two executions, one reconnect, and `boom` is the surfaced error. -/
theorem run_control_action_retry_policy_witness :
    run_control_action true (.error "timeout".data) true (.error "boom".data)
      = ⟨2, 1, some "boom".data⟩ :=
  ((run_control_action_retry_policy "timeout".data true
    (.error "boom".data)).1 (by decide)).2.2.1 "boom".data

/-- Counterexample to C3 as stated: with a live cast handle whose
`set_volume` dispatch raises, the exception propagates before the cache
write, so the cached volume keeps its old value `1` instead of the
clamped input `0` — the clamped value is not "always stored". -/
theorem set_volume_dispatch_failure_skips_cache :
    (set_volume connectedCastState 0 (fun _ => .error "boom".data)).raised
        = some "boom".data
      ∧ (set_volume connectedCastState 0
          (fun _ => .error "boom".data)).finalState.state.volume = 1 := by
  exact ⟨by decide, by decide⟩

/-- C3 (amended): `set_volume` clamps the level to [0,1] before any
dispatch; whenever the backend dispatch does not raise — including the
disconnected case, where nothing is dispatched at all — the clamped value
is stored into the cached state's volume; when the dispatch raises, the
exception propagates and the cached volume is left unchanged. -/
theorem set_volume_clamps_and_caches (s : CastManagerState) (level : ℚ)
    (dispatch : ℚ → Except PyStr Unit)
    (hb : s.active_backend = "chromecast".data) :
    (0 ≤ max 0 (min 1 level) ∧ max 0 (min 1 level) ≤ 1)
    ∧ ((set_volume s level dispatch).dispatched
        = if s.cast.isSome then some (max 0 (min 1 level)) else none)
    ∧ (s.cast = none →
        set_volume s level dispatch
          = ⟨none, { s with state := { s.state with volume := max 0 (min 1 level) } }, none⟩)
    ∧ (∀ h e, s.cast = some h → dispatch (max 0 (min 1 level)) = .error e →
        set_volume s level dispatch = ⟨some (max 0 (min 1 level)), s, some e⟩)
    ∧ (∀ h, s.cast = some h → dispatch (max 0 (min 1 level)) = .ok () →
        set_volume s level dispatch
          = ⟨some (max 0 (min 1 level)),
             { s with state := { s.state with volume := max 0 (min 1 level) } }, none⟩) := by
  have hvr : ¬ s.active_backend = "roku".data := by
    rw [hb]
    decide
  have hva : ¬ s.active_backend = "airplay".data := by
    rw [hb]
    decide
  refine ⟨⟨le_max_left 0 _, max_le zero_le_one (min_le_left _ _)⟩, ?_, ?_, ?_, ?_⟩
  · simp only [set_volume, if_neg hvr, if_neg hva]
    cases hc : s.cast with
    | none => simp
    | some h => cases hd : dispatch (max 0 (min 1 level)) <;> simp
  · intro hc
    simp only [set_volume, if_neg hvr, if_neg hva, hc]
  · intro h e hc hd
    simp only [set_volume, if_neg hvr, if_neg hva, hc, hd]
  · intro h hc hd
    simp only [set_volume, if_neg hvr, if_neg hva, hc, hd]

/-- Witness for C3 (amended): level `2` on a connected session whose
dispatch succeeds is dispatched clamped to `1` and cached as `1`. -/
theorem set_volume_clamps_and_caches_witness :
    (set_volume connectedCastState 2 (fun _ => .ok ())).dispatched = some 1
      ∧ (set_volume connectedCastState 2 (fun _ => .ok ())).finalState.state.volume = 1 := by
  have h := set_volume_clamps_and_caches connectedCastState 2 (fun _ => .ok ()) (by decide)
  constructor
  · exact (h.2.1).trans (by decide)
  · have h5 := h.2.2.2.2 0 (by decide) rfl
    rw [h5]
    decide

/-- Witness for C10: `Range: bytes=12-15` on the 10-byte file `0,…,9`
yields 206 with `Content-Range: bytes 12-9/10`, `Content-Length: -2` and
an empty body. -/
theorem handle_media_range_start_beyond_eof_witness :
    handle_media_range (List.range 10) "bytes=12-15".data
      = some { status := 206, contentRange := "bytes 12-9/10".data,
               contentLength := -2, body := [] } := by
  have h := handle_media_range_start_beyond_eof (List.range 10) "bytes=12-15".data
    "12".data "15".data [] 12 15 (by decide) (by decide) (by decide) (by decide)
  exact h.1.trans (by decide)

/-- Counterexample to C4 as stated: `toggle_mute` issued on the
disconnected initial state returns successfully (the `if self._cast:`
guard just skips the body) instead of raising a "not connected"
failure — it silently does nothing. -/
theorem toggle_mute_disconnected_silent :
    toggle_mute initialState (fun _ => .ok ()) = .ok () := rfl

/-- C4 (amended): while no cast handle is set (and the backend tag is the
default `chromecast`), `play`, `pause`, `stop` and `seek` raise the
`RuntimeError` "Not connected to any Chromecast" — whose text contains
"not connected" case-insensitively — but `set_volume` returns without
raising (updating only the cached volume, dispatching nothing), and
`toggle_mute` and `quit_app` silently do nothing. -/
theorem disconnected_command_behavior (s : CastManagerState)
    (rokuHttp d1 d2 d3 d4 dsk : Except PyStr Unit) (dv : ℚ → Except PyStr Unit)
    (dm : Bool → Except PyStr Unit) (level seconds : ℚ)
    (hc : s.cast = none) (hb : s.active_backend = "chromecast".data) :
    play s rokuHttp d1 = .error errNotConnectedChromecast
    ∧ pause s rokuHttp d2 = .error errNotConnectedChromecast
    ∧ stop s rokuHttp d3 = .error errNotConnectedChromecast
    ∧ seek s seconds dsk = .error errNotConnectedChromecast
    ∧ hasSub (pyLower errNotConnectedChromecast) "not connected".data = true
    ∧ set_volume s level dv
        = ⟨none, { s with state := { s.state with volume := max 0 (min 1 level) } }, none⟩
    ∧ toggle_mute s dm = .ok ()
    ∧ quit_app s rokuHttp d4 = .ok () := by
  have hvr : ¬ s.active_backend = "roku".data := by
    rw [hb]
    decide
  have hva : ¬ s.active_backend = "airplay".data := by
    rw [hb]
    decide
  refine ⟨?_, ?_, ?_, ?_, by decide, ?_, ?_, ?_⟩
  · simp only [play, if_neg hvr, if_neg hva, media_controller, hc]
  · simp only [pause, if_neg hvr, if_neg hva, media_controller, hc]
  · simp only [stop, if_neg hvr, if_neg hva, media_controller, hc]
  · simp only [seek, if_neg hvr, if_neg hva, media_controller, hc]
  · simp only [set_volume, if_neg hvr, if_neg hva, hc]
  · simp only [toggle_mute, if_neg hvr, if_neg hva, hc]
  · simp only [quit_app, if_neg hvr, if_neg hva, hc]

/-- Witness for C4 (amended): on the initial (disconnected) state, `play`
raises the "Not connected to any Chromecast" failure while `toggle_mute`
silently succeeds. -/
theorem disconnected_command_behavior_witness :
    play initialState (.ok ()) (.ok ()) = .error errNotConnectedChromecast
      ∧ toggle_mute initialState (fun _ => .ok ()) = .ok () := by
  have h := disconnected_command_behavior initialState (.ok ()) (.ok ()) (.ok ())
    (.ok ()) (.ok ()) (.ok ()) (fun _ => .ok ()) (fun _ => .ok ()) 0 0 rfl rfl
  exact ⟨h.1, h.2.2.2.2.2.2.1⟩

/-- C5: in every reachable manager state, at most one backend handle is
set, and `connected` is true exactly when one handle is set. -/
theorem connected_iff_exactly_one_handle (s : CastManagerState) (hr : Reachable s) :
    handleCount s ≤ 1 ∧ (connected s = true ↔ handleCount s = 1) := by
  induction hr with
  | init => decide
  | disconnect_step s' _ _ => decide
  | connect_chromecast_ok s' h b vol muted _ _ =>
    simp [connectChromecastOk, handleCount, connected, disconnectedState]
  | connect_roku_ok s' d _ _ =>
    simp [connectRokuOk, handleCount, connected, disconnectedState]
  | connect_fail s' _ _ =>
    simp [connectFail, handleCount, connected, disconnectedState]
  | playback_write s' ps _ ih => exact ih

/-- Witness for C5: the state reached by connecting to a Roku device from
the initial state has exactly one handle and reports `connected`. -/
theorem connected_iff_exactly_one_handle_witness :
    handleCount (connectRokuOk initialState sampleRoku) ≤ 1
      ∧ (connected (connectRokuOk initialState sampleRoku) = true
          ↔ handleCount (connectRokuOk initialState sampleRoku) = 1) :=
  connected_iff_exactly_one_handle _ (.connect_roku_ok _ sampleRoku .init)

/-- C6: `disconnect()` returns the cleared state whatever the teardown
outcomes are — a teardown exception never propagates — with every backend
handle cleared and the `PlaybackState` reset to its defaults. -/
theorem disconnect_always_resets (s : CastManagerState)
    (castTeardown browserTeardown : Except PyStr Unit) :
    disconnect s castTeardown browserTeardown = .ok disconnectedState
    ∧ disconnectedState.cast = none
    ∧ disconnectedState.browser = none
    ∧ disconnectedState.roku_device = none
    ∧ disconnectedState.airplay_device = none
    ∧ disconnectedState.state = ({} : PlaybackState) := by
  refine ⟨?_, rfl, rfl, rfl, rfl, rfl⟩
  cases castTeardown <;> cases browserTeardown <;>
    cases hc : s.cast.isSome <;> cases hbr : s.browser.isSome <;>
      simp [disconnect, tryIgnore, hc, hbr] <;> rfl

/-- Counterexample to C7 as stated: when the primary (chromecast)
enumeration raises, `discover` propagates the failure — no `try` guards
that call — so the device the Roku probe found is suppressed. -/
theorem discover_primary_failure_suppresses_roku :
    discover (.error "network down".data) (.ok [sampleRoku]) (.ok [])
      = .error "network down".data := rfl

/-- C7 (amended): failures of the Roku or AirPlay probes are isolated —
the devices contributed by the other backends are still returned — and an
empty device list is a valid non-error result; but a failure of the
primary (chromecast) enumeration, which no `try` guards, propagates and
suppresses all results. -/
theorem discover_secondary_failures_isolated (ccs rds ads : List DeviceInfo)
    (re ae pe : PyStr) (rokuProbe airplayProbe : Except PyStr (List DeviceInfo)) :
    discover (.ok ccs) (.error re) (.ok ads) = .ok (ccs ++ ads)
    ∧ discover (.ok ccs) (.ok rds) (.error ae) = .ok (ccs ++ rds)
    ∧ discover (.ok ccs) (.error re) (.error ae) = .ok ccs
    ∧ discover (.ok ccs) (.ok rds) (.ok ads) = .ok (ccs ++ rds ++ ads)
    ∧ discover (.ok []) (.ok []) (.ok []) = .ok []
    ∧ discover (.error pe) rokuProbe airplayProbe = .error pe := by
  refine ⟨?_, ?_, ?_, ?_, rfl, rfl⟩ <;> simp [discover]

/-- C8: a missing first multipart field, or one not named `file`, yields
400 with nothing persisted and no callback; otherwise the upload is
persisted as `{uuid hex}{original extension}` inside the upload
directory, the callback receives the constructed URL and the original
filename, the response is `{ok:true,url,name}` on callback success and
`{ok:false,error,url}` with 500 on callback failure — and the persisted
file is there in both cases. -/
theorem handle_upload_cast_behavior (uploadDir scheme host : PyStr)
    (field : MultipartField) (uuidHex : PyStr)
    (callback : PyStr → PyStr → Except PyStr Unit) :
    handle_upload_cast uploadDir scheme host none uuidHex callback
        = ⟨⟨400, false, some "missing file".data, none, none⟩, [], none⟩
    ∧ (¬ field.name = "file".data →
        handle_upload_cast uploadDir scheme host (some field) uuidHex callback
          = ⟨⟨400, false, some "missing file".data, none, none⟩, [], none⟩)
    ∧ (field.name = "file".data →
        (handle_upload_cast uploadDir scheme host (some field) uuidHex callback).savedFiles
            = [(uploadSavedPath uploadDir uuidHex field, field.content)]
        ∧ (handle_upload_cast uploadDir scheme host (some field) uuidHex callback).callbackCall
            = some (uploadMediaUrl scheme host uploadDir uuidHex field, uploadFilename field)
        ∧ (callback (uploadMediaUrl scheme host uploadDir uuidHex field)
              (uploadFilename field) = .ok () →
            (handle_upload_cast uploadDir scheme host (some field) uuidHex callback).response
              = ⟨200, true, none, some (uploadMediaUrl scheme host uploadDir uuidHex field),
                 some (uploadFilename field)⟩)
        ∧ (∀ e, callback (uploadMediaUrl scheme host uploadDir uuidHex field)
              (uploadFilename field) = .error e →
            (handle_upload_cast uploadDir scheme host (some field) uuidHex callback).response
              = ⟨500, false, some e,
                 some (uploadMediaUrl scheme host uploadDir uuidHex field), none⟩)) := by
  refine ⟨rfl, ?_, ?_⟩
  · intro h
    simp only [handle_upload_cast, if_pos h]
  · intro h
    simp only [handle_upload_cast, h]
    rw [if_neg (show ¬ ¬ True by decide)]
    refine ⟨?_, ?_, ?_, ?_⟩
    · cases hcb : callback (uploadMediaUrl scheme host uploadDir uuidHex field)
        (uploadFilename field) <;> simp only [hcb]
    · cases hcb : callback (uploadMediaUrl scheme host uploadDir uuidHex field)
        (uploadFilename field) <;> simp only [hcb]
    · intro hcb
      simp only [hcb]
    · intro e hcb
      simp only [hcb]

/-- Bounds of the final clamping step of the seek parser. -/
theorem seekClampBounds (duration t0 : ℚ) :
    0 ≤ (if 0 < duration then min (max 0 t0) duration else max 0 t0)
    ∧ (0 < duration →
        (if 0 < duration then min (max 0 t0) duration else max 0 t0) ≤ duration) := by
  by_cases hd : 0 < duration
  · rw [if_pos hd]
    exact ⟨le_min (le_max_left 0 t0) (le_of_lt hd), fun _ => min_le_right _ _⟩
  · rw [if_neg hd]
    exact ⟨le_max_left 0 t0, fun hdd => absurd hdd hd⟩

/-- C9: whenever the seek-target parser returns a value, that value is
nonnegative and — whenever the duration is positive — at most the
duration; and it returns `none` exactly when the stripped input is empty
(so for empty or whitespace-only `raw`) or the input matches none of the
accepted forms (signed offset, `M:S`, `H:M:S`, plain number). Stated for
every model `pyFloat` of Python's `float(...)`. -/
theorem parse_seek_target_bounds (pyFloat : PyStr → Option ℚ) (raw : PyStr)
    (current_time duration : ℚ) :
    (∀ t, parse_seek_target pyFloat raw current_time duration = some t →
        0 ≤ t ∧ (0 < duration → t ≤ duration))
    ∧ (parse_seek_target pyFloat raw current_time duration = none
        ↔ seekFormMatches pyFloat raw = false) := by
  constructor
  · intro t ht
    unfold parse_seek_target at ht
    by_cases htext : pyStrip raw = []
    · rw [if_pos htext] at ht
      exact absurd ht (by simp)
    · rw [if_neg htext] at ht
      rcases Option.map_eq_some'.mp ht with ⟨t0, _, hft⟩
      rw [← hft]
      exact seekClampBounds duration t0
  · unfold parse_seek_target seekFormMatches
    by_cases htext : pyStrip raw = []
    · rw [if_pos htext, if_pos htext]
      simp
    · rw [if_neg htext, if_neg htext]
      rw [Option.map_eq_none']
      by_cases hsign : (pyStrip raw).headD ' ' = '+' ∨ (pyStrip raw).headD ' ' = '-'
      · rw [if_pos hsign, if_pos hsign]
        cases hpf : pyFloat (pyStrip raw) <;> simp [hpf]
      · rw [if_neg hsign, if_neg hsign]
        by_cases hcol : hasSub (pyStrip raw) ":".data = true
        · rw [if_pos hcol, if_pos hcol]
          rcases hsp : splitOnChar ':' (pyStrip raw) with
            _ | ⟨p0, _ | ⟨p1, _ | ⟨p2, _ | ⟨p3, rest⟩⟩⟩⟩
          · simp
          · simp
          · cases hm0 : pyInt? p0 <;> cases hm1 : pyInt? p1 <;> simp [hm0, hm1]
          · cases hm0 : pyInt? p0 <;> cases hm1 : pyInt? p1 <;>
              cases hm2 : pyInt? p2 <;> simp [hm0, hm1, hm2]
          · simp
        · rw [if_neg hcol, if_neg hcol]
          cases hpf : pyFloat (pyStrip raw) <;> simp [hpf]

end ChromecastTui
